import Mathlib

/-!
Verification model of the aptekonline.az pharmacy scraper
(`src/aptekonline.py`).

The Python program is embedded shallowly:

* a Python `dict` with string keys and string values is an association
  list `List (String × String)` in insertion order (`dictGet` / `dictSet`);
* `BeautifulSoup` queries are abstracted by a `Page` record holding, for
  each query the code performs, the text or attribute values that the
  query would return (the granularity matches exactly what the code
  observes);
* the two regular expressions that the code applies to raw text
  (the `initMapPharmacies` coordinate pattern in `scrape_pharmacy_page`
  and the listing-array pattern in `get_pharmacy_ids`) are implemented
  as explicit backtracking matchers with Python `re.search` semantics;
* `json.loads` is implemented as a JSON parser over `List Char`;
* network and thread-pool effects are replaced by explicit parameters:
  a per-task outcome oracle and a completion-order permutation.
-/

/-! ## Python dictionaries as association lists -/

/-- Lookup in a Python dict modelled as an association list
(first binding wins; the scraper never rebinds a key, so the list is
keyed uniquely). -/
def dictGet (r : List (String × String)) (k : String) : Option String :=
  match r with
  | [] => none
  | (k₁, v) :: rest => if k₁ = k then some v else dictGet rest k

/-- Python dict assignment `d[k] = v`: replace an existing binding in
place, otherwise append the new binding (CPython insertion order). -/
def dictSet (r : List (String × String)) (k v : String) : List (String × String) :=
  match r with
  | [] => [(k, v)]
  | (k₁, v₁) :: rest => if k₁ = k then (k, v) :: rest else (k₁, v₁) :: dictSet rest k v

/-! ## Python string helpers -/

/-- Whitespace as recognised by Python `str.strip()` and by the regex
class `\s` (restricted to the ASCII range; the scraped fields never
contain the additional Unicode whitespace code points). -/
def isPySpace (c : Char) : Bool :=
  c = ' ' || c = '\t' || c = '\n' || c = '\r' || c = '\x0b' || c = '\x0c'

/-- Python `str.strip()` on a character list. -/
def pyStripList (l : List Char) : List Char :=
  ((l.dropWhile isPySpace).reverse.dropWhile isPySpace).reverse

/-- Python `str.strip()`. -/
def pyStrip (s : String) : String :=
  (pyStripList s.data).asString

/-- Match a literal character sequence at the head of the input and
return the remaining input (the building block for literal regex
parts). -/
def dropLiteral : List Char → List Char → Option (List Char)
  | [], l => some l
  | _ :: _, [] => none
  | p :: ps, c :: cs => if p = c then dropLiteral ps cs else none

/-!
## The coordinate regex of `scrape_pharmacy_page`

`src/aptekonline.py` lines 126-137 run `re.search` with the pattern
(written here in words, since the original uses brace characters):

  literal `initMapPharmacies`, one or more non-left-brace characters,
  a left brace, any non-right-brace characters, literal `lat:`,
  optional whitespace, an optional `(`, a captured run of digits and
  dots, an optional `)`, any non-right-brace characters, literal
  `lng:`, optional whitespace, an optional `(`, a captured run of
  digits and dots, an optional `)`.

`re.search` returns the leftmost match; the greedy `[^X]*` parts
backtrack from the longest candidate, so the matcher below tries the
rightmost `lat:` / `lng:` occurrence first.  The `DOTALL` flag only
affects `.`, which the pattern does not contain.
-/

/-- Characters matched by the regex class of digits and dots used for
the two captured coordinate groups. -/
def isCoordChar (c : Char) : Bool :=
  c.isDigit || c = '.'

/-- The sub-pattern after `lat:` / `lng:`: optional whitespace, an
optional opening parenthesis, then a non-empty greedy run of digits and
dots, then an optional closing parenthesis.  Returns the captured group
and the rest of the input.  Within one start position this sub-pattern
is deterministic: whitespace characters and the parentheses are not in
the digits-and-dots class, so no shorter greedy choice can succeed when
the maximal one fails. -/
def parseCoord (l : List Char) : Option (String × List Char) :=
  let l₁ := l.dropWhile isPySpace
  let l₂ := match l₁ with
    | '(' :: r => r
    | _ => l₁
  let num := l₂.takeWhile isCoordChar
  if num.isEmpty then none
  else
    let r₁ := l₂.dropWhile isCoordChar
    let r₂ := match r₁ with
      | ')' :: r => r
      | _ => r₁
    some (num.asString, r₂)

/-- All suffixes of the input that start right after an occurrence of
`key` reachable without crossing a right brace (the region a greedy
`[^X]*` gap may span), in left-to-right order of the occurrences. -/
def keySuffixes (key : List Char) : List Char → List (List Char)
  | [] => []
  | c :: rest =>
    if c = '\x7d' then []
    else
      match dropLiteral key (c :: rest) with
      | some suf => suf :: keySuffixes key rest
      | none => keySuffixes key rest

/-- Return the first success of `f` over a list of candidates (the
backtracking priority order). -/
def firstSome (f : α → Option β) : List α → Option β
  | [] => none
  | a :: rest =>
    match f a with
    | some b => some b
    | none => firstSome f rest

/-- Regex tail after the opening brace: gap, `lat:`, coordinate group,
gap, `lng:`, coordinate group.  Greedy gaps try the rightmost key
occurrence first and backtrack leftwards. -/
def matchLatLng (l : List Char) : Option (String × String) :=
  firstSome
    (fun sufLat =>
      match parseCoord sufLat with
      | none => none
      | some (lat, rest) =>
        firstSome
          (fun sufLng =>
            match parseCoord sufLng with
            | none => none
            | some (lng, _) => some (lat, lng))
          ((keySuffixes "lng:".data rest).reverse))
    ((keySuffixes "lat:".data l).reverse)

/-- The regex part between the anchor literal and the opening brace:
one or more non-left-brace characters followed by a left brace.  The
character class cannot cross a left brace, so this deterministically
skips to the first left brace, requiring at least one character before
it. -/
def afterBrace : List Char → Option (List Char)
  | [] => none
  | c :: rest =>
    if c = '\x7b' then none
    else
      match rest.dropWhile (fun x => x != '\x7b') with
      | [] => none
      | _ :: suf => some suf

/-- Leftmost-search loop of the coordinate regex: try every occurrence
of the literal `initMapPharmacies` from left to right; at each, the
brace part is deterministic and the brace-delimited tail backtracks
internally. -/
def map_coords_search : List Char → Option (String × String)
  | [] => none
  | c :: rest =>
    match dropLiteral "initMapPharmacies".data (c :: rest) with
    | some suf =>
      match afterBrace suf with
      | some inner =>
        match matchLatLng inner with
        | some res => some res
        | none => map_coords_search rest
      | none => map_coords_search rest
    | none => map_coords_search rest

/-!
## Pharmacy name extraction

`src/aptekonline.py` lines 84-89: the title text is stripped, then
matched against the anchored pattern: a lazy non-empty group of
non-newline characters, optional whitespace, literal `Aptekonline`.
On a match the stripped first group is the name; otherwise the part of
the title before the first `Aptekonline` (Python `str.split` component
zero), stripped, is used.
-/

/-- Does the literal `Aptekonline` follow after a (possibly empty)
whitespace run?  Because `A` is not whitespace, the greedy whitespace
part of the pattern is deterministic. -/
def aptekFollows (l : List Char) : Bool :=
  "Aptekonline".data.isPrefixOf (l.dropWhile isPySpace)

/-- Lazy matching loop for the name group: grow the group one character
at a time (shortest first, per lazy `+?`), never across a newline, and
stop as soon as `Aptekonline` follows. -/
def name_match_go (acc : List Char) : List Char → Option (List Char)
  | [] => none
  | c :: cs =>
    if c = '\n' then none
    else if aptekFollows cs then some (c :: acc).reverse
    else name_match_go (c :: acc) cs

/-- Model of `re.match` with the name pattern: the captured group, if
the pattern matches at the start of the string. -/
def name_match (t : String) : Option String :=
  (name_match_go [] t.data).map List.asString

/-- Python `t.split("Aptekonline")[0]`: everything before the first
occurrence of the separator (the whole string when absent). -/
def split_before_aptek : List Char → List Char
  | [] => []
  | c :: rest =>
    if "Aptekonline".data.isPrefixOf (c :: rest) then []
    else c :: split_before_aptek rest

/-- The `name` field derived from a present title element
(lines 87-89). -/
def nameVal (titleText : String) : String :=
  let t := pyStrip titleText
  match name_match t with
  | some g => pyStrip g
  | none => pyStrip (split_before_aptek t.data).asString

/-!
## The page model

One `Page` value records what every soup query of
`scrape_pharmacy_page` would return on a given markup input.  `none`
means the queried element is absent.
-/

/-- Results of the queries against the `contact-aptek` block
(lines 100-124).  Each text is the `get_text(strip=True)` value. -/
structure ContactDiv where
  /-- Text of the parent of the `fa-map-marker` icon, when the icon
  exists and has a parent. -/
  mapMarkerParentText : Option String
  /-- Text of the first `p` descendant, when one exists. -/
  firstPText : Option String
  /-- Text of the parent of the `fa-phone` icon, when the icon exists
  and has a parent. -/
  phoneParentText : Option String
  /-- Whether an `fa-eye` icon occurs in the block. -/
  hasEyeIcon : Bool

/-- Abstraction of one detail page: the answers to every query
`scrape_pharmacy_page` performs. -/
structure Page where
  /-- Raw `.text` of the `title` element, when present (line 85). -/
  titleText : Option String
  /-- The meta-description element, when present, with its `content`
  attribute, when present (line 92). -/
  metaDescContent : Option (Option String)
  /-- `get_text(strip=True)` of the `card-header` div, when present
  (line 96). -/
  cardHeaderText : Option String
  /-- The `contact-aptek` block, when present (line 100). -/
  contactDiv : Option ContactDiv
  /-- The `aptek-pinto` div, when present; inside it the `img-fluid`
  image, when present; inside that the `src` attribute, when present
  (lines 139-144). -/
  aptekPintoImgSrc : Option (Option (Option String))
  /-- The `href` attribute value of every anchor element carrying one,
  in document order (line 147 filters these by the `tel:` prefix
  regex). -/
  anchorHrefs : List String
  /-- The `partniyor` section, when present, as the list of `title`
  attribute values of its images that carry a title (lines 152-155). -/
  partniyorImgTitles : Option (List String)
  /-- The `tab-gallery` div, when present, as the list of `src`
  attribute values of its images that carry one (lines 161-164). -/
  tabGalleryImgSrcs : Option (List String)
  /-- The raw response text the coordinate regex searches (line 79). -/
  text : String

/-! ## Per-field extraction (lines 91-177) -/

/-- Line 93: stripped meta-description content, defaulting to empty. -/
def descriptionVal (p : Page) : String :=
  match p.metaDescContent with
  | some contentAttr => pyStrip (contentAttr.getD "")
  | none => ""

/-- Line 97: the `card-header` text, defaulting to empty. -/
def regionVal (p : Page) : String :=
  p.cardHeaderText.getD ""

/-- Lines 103-109 and 122: marker-icon parent text, else the first
paragraph, else empty. -/
def addressVal (p : Page) : String :=
  match p.contactDiv with
  | some cd =>
    match cd.mapMarkerParentText with
    | some s => s
    | none => cd.firstPText.getD ""
  | none => ""

/-- Lines 112-116 and 123: phone-icon parent text, else empty. -/
def contactPhoneVal (p : Page) : String :=
  match p.contactDiv with
  | some cd => cd.phoneParentText.getD ""
  | none => ""

/-- Lines 119-120 and 124: presence flag of the `fa-eye` icon. -/
def optikaServiceVal (p : Page) : String :=
  match p.contactDiv with
  | some cd => if cd.hasEyeIcon then "1" else "0"
  | none => "0"

/-- Lines 127-136: first captured group of the coordinate regex, else
empty. -/
def latitudeVal (p : Page) : String :=
  match map_coords_search p.text.data with
  | some coords => coords.1
  | none => ""

/-- Lines 127-136: second captured group of the coordinate regex, else
empty. -/
def longitudeVal (p : Page) : String :=
  match map_coords_search p.text.data with
  | some coords => coords.2
  | none => ""

/-- Lines 139-144: the image source from the `aptek-pinto` div. -/
def imageUrlVal (p : Page) : String :=
  match p.aptekPintoImgSrc with
  | some imgOpt =>
    match imgOpt with
    | some srcAttr => srcAttr.getD ""
    | none => ""
  | none => ""

/-- Python `href.replace("tel:", "")`: delete every non-overlapping
occurrence of the four characters `tel:`, scanning left to right. -/
def stripTelList : List Char → List Char
  | 't' :: 'e' :: 'l' :: ':' :: rest => stripTelList rest
  | c :: rest => c :: stripTelList rest
  | [] => []

/-- String version of `stripTelList`. -/
def stripTel (s : String) : String :=
  (stripTelList s.data).asString

/-- Line 148: hrefs of anchors matching the anchored `tel:` regex,
with the scheme text removed and duplicates removed by `set`.  CPython
iterates a set in an order determined by string hashing; the model
fixes the order via `List.dedup`, which every claim proved below is
insensitive to. -/
def telPhones (p : Page) : List String :=
  ((p.anchorHrefs.filter (fun h => "tel:".isPrefixOf h)).map stripTel).dedup

/-- The idiom `"; ".join(xs) if xs else ""` used on lines 149, 156
and 165. -/
def joinIfNonempty (l : List String) : String :=
  if l.isEmpty then "" else String.intercalate "; " l

/-- Line 149: joined deduplicated phone numbers. -/
def allPhonesVal (p : Page) : String :=
  joinIfNonempty (telPhones p)

/-- Lines 152-158: joined non-empty insurance titles, else empty. -/
def insuranceVal (p : Page) : String :=
  match p.partniyorImgTitles with
  | some titles => joinIfNonempty (titles.filter (fun t => t != ""))
  | none => ""

/-- Line 164: gallery sources with empty values filtered out, when the
gallery div exists. -/
def galleryUrls (p : Page) : Option (List String) :=
  p.tabGalleryImgSrcs.map (fun l => l.filter (fun s => s != ""))

/-- Lines 165 and 168: joined gallery URLs, else empty. -/
def galleryImagesVal (p : Page) : String :=
  match galleryUrls p with
  | some urls => joinIfNonempty urls
  | none => ""

/-- Lines 166 and 169: `str(len(urls))`, else the literal zero. -/
def galleryCountVal (p : Page) : String :=
  match galleryUrls p with
  | some urls => Nat.repr urls.length
  | none => "0"

/-- Lines 171-175: the Google Maps URL, built only when both
coordinates are non-empty (Python string truthiness). -/
def mapsUrlVal (p : Page) : String :=
  if latitudeVal p != "" && longitudeVal p != "" then
    "https://www.google.com/maps?q=" ++ latitudeVal p ++ "," ++ longitudeVal p
  else ""

/-- Line 27. -/
def BASE_URL : String := "https://aptekonline.az"

/-- Lines 70 and 177: the detail page URL. -/
def pageUrlVal (pid : Int) : String :=
  BASE_URL ++ "/pharmacies/" ++ toString pid

/-- Lines 68-179, success path of `scrape_pharmacy_page`: the record
built by the extractor, in Python dict insertion order.  Every
assignment in the source writes a fresh key exactly once, except that
the `name` assignment on line 89 happens only when a title element
exists, so dict assignment coincides with list append.  The `id` value
is an integer in the source; it is stored here as its decimal string,
which is also how every consumer of the record renders it. -/
def scrape_pharmacy_page (pid : Int) (p : Page) : List (String × String) :=
  [("id", toString pid)]
  ++ (match p.titleText with
      | some t => [("name", nameVal t)]
      | none => [])
  ++ [("description", descriptionVal p),
      ("region", regionVal p),
      ("address", addressVal p),
      ("contact_phone", contactPhoneVal p),
      ("has_optika_service", optikaServiceVal p),
      ("latitude", latitudeVal p),
      ("longitude", longitudeVal p),
      ("image_url", imageUrlVal p),
      ("all_phones", allPhonesVal p),
      ("insurance_partners", insuranceVal p),
      ("gallery_images", galleryImagesVal p),
      ("gallery_count", galleryCountVal p),
      ("google_maps_url", mapsUrlVal p),
      ("page_url", pageUrlVal pid)]

/-!
## JSON values and `json.loads`

`get_pharmacy_ids` (line 62) decodes the regex-matched block with
`json.loads`.  The parser below follows the CPython `json` module:
whitespace is space, tab, newline and carriage return; values are
objects, arrays, strings, numbers, `true`, `false`, `null` and the
default-enabled extensions `NaN`, `Infinity`, `-Infinity`; strings
reject unescaped control characters and decode the eight simple
escapes plus `\u` with surrogate-pair combination; numbers follow the
strict grammar (no leading zeros, no bare fraction); trailing input
after the value is an error.  Number lexemes are kept as strings, and
an object keeps its member list in source order (CPython builds a dict
whose later duplicate keys win; the listing data never carries
duplicate keys, and nothing below looks inside objects).  A lone
`\u`-escaped surrogate, which CPython keeps as a lone surrogate code
unit, is mapped to the default character, a divergence no claim
touches.
-/

/-- Decoded JSON values. -/
inductive Json where
  | null : Json
  | bool (b : Bool) : Json
  | num (lit : String) : Json
  | str (s : String) : Json
  | arr (elems : List Json) : Json
  | obj (members : List (String × Json)) : Json

/-- JSON inter-token whitespace. -/
def jsonWs (c : Char) : Bool :=
  c = ' ' || c = '\t' || c = '\n' || c = '\r'

/-- Drop JSON whitespace. -/
def skipWs (l : List Char) : List Char :=
  l.dropWhile jsonWs

/-- Value of one hexadecimal digit. -/
def hexVal (c : Char) : Option Nat :=
  if c.isDigit then some (c.toNat - 48)
  else if 'a' ≤ c ∧ c ≤ 'f' then some (c.toNat - 87)
  else if 'A' ≤ c ∧ c ≤ 'F' then some (c.toNat - 55)
  else none

/-- The eight simple JSON string escapes. -/
def escChar (c : Char) : Option Char :=
  match c with
  | '"' => some '"'
  | '\\' => some '\\'
  | '/' => some '/'
  | 'b' => some '\x08'
  | 'f' => some '\x0c'
  | 'n' => some '\n'
  | 'r' => some '\r'
  | 't' => some '\t'
  | _ => none

/-- Parse the body of a JSON string (the opening quote already
consumed), returning the decoded characters and the input after the
closing quote.  The fuel argument only rules out non-termination;
every recursive call consumes at least one input character, so any
fuel exceeding the input length never runs out. -/
def parseJStringGo : Nat → List Char → Option (List Char × List Char)
  | 0, _ => none
  | _, [] => none
  | _ + 1, '"' :: rest => some ([], rest)
  | fuel + 1, '\\' :: 'u' :: a :: b :: c :: d :: rest =>
    (match hexVal a, hexVal b, hexVal c, hexVal d with
     | some ha, some hb, some hc, some hd =>
       let n := ((ha * 16 + hb) * 16 + hc) * 16 + hd
       if 0xD800 ≤ n ∧ n ≤ 0xDBFF then
         match rest with
         | '\\' :: 'u' :: e :: f :: g :: h :: rest₂ =>
           (match hexVal e, hexVal f, hexVal g, hexVal h with
            | some he, some hf, some hg, some hh =>
              let m := ((he * 16 + hf) * 16 + hg) * 16 + hh
              if 0xDC00 ≤ m ∧ m ≤ 0xDFFF then
                match parseJStringGo fuel rest₂ with
                | some (cs, r) =>
                  some (Char.ofNat (0x10000 + (n - 0xD800) * 1024 + (m - 0xDC00)) :: cs, r)
                | none => none
              else
                match parseJStringGo fuel rest with
                | some (cs, r) => some (Char.ofNat n :: cs, r)
                | none => none
            | _, _, _, _ =>
              match parseJStringGo fuel rest with
              | some (cs, r) => some (Char.ofNat n :: cs, r)
              | none => none)
         | _ =>
           match parseJStringGo fuel rest with
           | some (cs, r) => some (Char.ofNat n :: cs, r)
           | none => none
       else
         match parseJStringGo fuel rest with
         | some (cs, r) => some (Char.ofNat n :: cs, r)
         | none => none
     | _, _, _, _ => none)
  | fuel + 1, '\\' :: e :: rest =>
    (match escChar e with
     | some c =>
       match parseJStringGo fuel rest with
       | some (cs, r) => some (c :: cs, r)
       | none => none
     | none => none)
  | fuel + 1, c :: rest =>
    if c.toNat < 0x20 then none
    else
      match parseJStringGo fuel rest with
      | some (cs, r) => some (c :: cs, r)
      | none => none

/-- One or more decimal digits. -/
def parseDigits (l : List Char) : Option (List Char × List Char) :=
  let ds := l.takeWhile Char.isDigit
  if ds.isEmpty then none else some (ds, l.dropWhile Char.isDigit)

/-- The JSON integer part: a single zero, or a nonzero digit followed
by digits. -/
def parseIntPart : List Char → Option (List Char × List Char)
  | '0' :: rest => some (['0'], rest)
  | l => parseDigits l

/-- Exponent tail: optional sign then one or more digits. -/
def expTail (l : List Char) : Option (List Char × List Char) :=
  match l with
  | '+' :: r =>
    (match parseDigits r with
     | some (ds, r₂) => some ('+' :: ds, r₂)
     | none => none)
  | '-' :: r =>
    (match parseDigits r with
     | some (ds, r₂) => some ('-' :: ds, r₂)
     | none => none)
  | _ => parseDigits l

/-- The strict JSON number grammar; returns the lexeme. -/
def parseNumber (l : List Char) : Option (String × List Char) :=
  let negRest := match l with
    | '-' :: r => (true, r)
    | _ => (false, l)
  match parseIntPart negRest.2 with
  | none => none
  | some (ip, l₂) =>
    let fracRest : List Char × List Char := match l₂ with
      | '.' :: r =>
        (match parseDigits r with
         | some (ds, r₂) => ('.' :: ds, r₂)
         | none => ([], l₂))
      | _ => ([], l₂)
    let expRest : List Char × List Char := match fracRest.2 with
      | 'e' :: r =>
        (match expTail r with
         | some (ds, r₂) => ('e' :: ds, r₂)
         | none => ([], fracRest.2))
      | 'E' :: r =>
        (match expTail r with
         | some (ds, r₂) => ('E' :: ds, r₂)
         | none => ([], fracRest.2))
      | _ => ([], fracRest.2)
    some (((if negRest.1 then ['-'] else []) ++ ip ++ fracRest.1 ++ expRest.1).asString,
          expRest.2)

mutual

/-- Parse one JSON value at the head of the input (no leading
whitespace).  The fuel argument only rules out non-termination; every
recursive call consumes at least one character first, so the fuel
chosen by `json_loads` never runs out. -/
def parseValue : Nat → List Char → Option (Json × List Char)
  | 0, _ => none
  | fuel + 1, l =>
    match l with
    | '"' :: rest =>
      (match parseJStringGo (fuel + 1) rest with
       | some (cs, r) => some (Json.str cs.asString, r)
       | none => none)
    | '[' :: rest =>
      (match skipWs rest with
       | ']' :: r => some (Json.arr [], r)
       | l₁ =>
         match parseValue fuel l₁ with
         | none => none
         | some (v, r) =>
           match parseItems fuel r with
           | some (vs, r₂) => some (Json.arr (v :: vs), r₂)
           | none => none)
    | '\x7b' :: rest =>
      (match skipWs rest with
       | '\x7d' :: r => some (Json.obj [], r)
       | '"' :: r =>
         (match parseJStringGo (fuel + 1) r with
          | none => none
          | some (k, r₂) =>
            match skipWs r₂ with
            | ':' :: r₃ =>
              (match parseValue fuel (skipWs r₃) with
               | none => none
               | some (v, r₄) =>
                 match parseMembers fuel r₄ with
                 | some (ms, r₅) => some (Json.obj ((k.asString, v) :: ms), r₅)
                 | none => none)
            | _ => none)
       | _ => none)
    | _ =>
      match dropLiteral "null".data l with
      | some r => some (Json.null, r)
      | none =>
      match dropLiteral "true".data l with
      | some r => some (Json.bool true, r)
      | none =>
      match dropLiteral "false".data l with
      | some r => some (Json.bool false, r)
      | none =>
      match parseNumber l with
      | some (s, r) => some (Json.num s, r)
      | none =>
      match dropLiteral "NaN".data l with
      | some r => some (Json.num "NaN", r)
      | none =>
      match dropLiteral "Infinity".data l with
      | some r => some (Json.num "Infinity", r)
      | none =>
      match dropLiteral "-Infinity".data l with
      | some r => some (Json.num "-Infinity", r)
      | none => none

/-- Continue an array after one parsed element: whitespace, then a
comma and another element, or the closing bracket. -/
def parseItems : Nat → List Char → Option (List Json × List Char)
  | 0, _ => none
  | fuel + 1, l =>
    match skipWs l with
    | ']' :: r => some ([], r)
    | ',' :: r =>
      (match parseValue fuel (skipWs r) with
       | none => none
       | some (v, r₂) =>
         match parseItems fuel r₂ with
         | some (vs, r₃) => some (v :: vs, r₃)
         | none => none)
    | _ => none

/-- Continue an object after one parsed member: whitespace, then a
comma and another member, or the closing brace. -/
def parseMembers : Nat → List Char → Option (List (String × Json) × List Char)
  | 0, _ => none
  | fuel + 1, l =>
    match skipWs l with
    | '\x7d' :: r => some ([], r)
    | ',' :: r =>
      (match skipWs r with
       | '"' :: r₁ =>
         (match parseJStringGo (fuel + 1) r₁ with
          | none => none
          | some (k, r₂) =>
            match skipWs r₂ with
            | ':' :: r₃ =>
              (match parseValue fuel (skipWs r₃) with
               | none => none
               | some (v, r₄) =>
                 match parseMembers fuel r₄ with
                 | some (ms, r₅) => some ((k.asString, v) :: ms, r₅)
                 | none => none)
            | _ => none)
       | _ => none)
    | _ => none

end

/-- Python `json.loads`: a single value with optional surrounding
whitespace; anything left over is a decode error (`none` models a
raised `JSONDecodeError`). -/
def json_loads (s : String) : Option Json :=
  match parseValue (s.length + 2) (skipWs s.data) with
  | some (v, r) => if (skipWs r).isEmpty then some v else none
  | none => none

/-!
## The listing regexet and `get_pharmacy_ids` (lines 45-65)

Line 57 searches the listing page for the pattern: literal
left-bracket, left-brace, quoted `id` key with a colon, one or more
digits, a comma, the quoted `thumbImg` key, one or more
non-right-bracket characters, and a right bracket.  Both greedy parts
are deterministic (digits cannot run into the comma, and the final
character class cannot cross the right bracket it must stop at), so
the search is a plain leftmost scan.
-/

/-- The anchored listing pattern matched at the head of the input,
returning the whole matched text (regex group zero). -/
def json_match_at (l : List Char) : Option (List Char) :=
  match dropLiteral "[\x7b\"id\":".data l with
  | none => none
  | some r₁ =>
    let ds := r₁.takeWhile Char.isDigit
    if ds.isEmpty then none
    else
      match dropLiteral ",\"thumbImg\"".data (r₁.dropWhile Char.isDigit) with
      | none => none
      | some r₃ =>
        let mid := r₃.takeWhile (fun c => c != ']')
        if mid.isEmpty then none
        else
          match r₃.dropWhile (fun c => c != ']') with
          | ']' :: _ =>
            some ("[\x7b\"id\":".data ++ ds ++ ",\"thumbImg\"".data ++ mid ++ [']'])
          | _ => none

/-- Leftmost `re.search` scan for the listing pattern. -/
def json_match_search : List Char → Option (List Char)
  | [] => none
  | c :: rest =>
    match json_match_at (c :: rest) with
    | some m => some m
    | none => json_match_search rest

/-- An HTTP response as `get_pharmacy_ids` observes it: a status code
and a decoded body. -/
structure HttpResponse where
  status_code : Nat
  text : String

/-- Lines 45-65, `get_pharmacy_ids`: a non-success status or a missing
data block raises (the two explicit `raise Exception` sites); a block
that matches the pattern but fails to decode raises `JSONDecodeError`
out of line 62, which equally aborts the run.  All three aborts are
modelled as `Except.error` with a message; success returns the decoded
entry list.  A successful decode of text starting with a left bracket
is always a JSON array, so the non-array arm is unreachable. -/
def get_pharmacy_ids (response : HttpResponse) : Except String (List Json) :=
  if response.status_code ≠ 200 then
    .error ("Failed to fetch pharmacy list: " ++ toString response.status_code)
  else
    match json_match_search response.text.data with
    | none => .error "Could not find pharmacy data in page"
    | some m =>
      match json_loads m.asString with
      | some (Json.arr xs) => .ok xs
      | some _ => .error "json.loads returned a non-list value"
      | none => .error "JSONDecodeError"

/-!
## The CSV sink, `save_to_csv` (lines 236-273)

The output artifact is modelled as the list of its cell rows (the
serialization to delimiter-separated text with quoting is outside the
model, as the spec scopes it).  `csv.DictWriter` is created with the
fixed `fieldnames`, `extrasaction="ignore"` and the default
`restval=None`: each record row holds, per column, the value bound to
that column key, the empty cell when the key is missing, and keys
outside the column set are skipped.  `none` models the early return on
line 238-240, which writes no file at all.
-/

/-- Lines 243-266: the fixed column order. -/
def columns : List String :=
  ["id", "name", "pharmacy_name_main", "description", "region", "address",
   "latitude", "longitude", "contact_phone", "pharmacy_tel", "pharmacy_mob",
   "all_phones", "is_duty_24h", "has_optika", "has_optika_service",
   "insurance_partners", "image_url", "thumb_image", "gallery_images",
   "gallery_count", "google_maps_url", "page_url"]

/-- One written record row under `DictWriter` semantics. -/
def csvRow (row : List (String × String)) : List String :=
  columns.map (fun c => (dictGet row c).getD "")

/-- Lines 236-271, `save_to_csv`. -/
def save_to_csv (data : List (List (String × String))) : Option (List (List String)) :=
  if data.isEmpty then none
  else some (columns :: data.map csvRow)

/-!
## The coordinator, `scrape_all_pharmacies` (lines 185-233)

The thread pool is abstracted away: one task is submitted per worklist
entry (line 198-201 builds one future per entry, so duplicated
identifiers still give distinct futures); `outcome i` is the record
that `future.result()` delivers for the task of entry `i`
(`scrape_pharmacy_page` catches every exception into an error record,
and a record raised out of `future.result()` is likewise appended to
the error list by the `except` arm on lines 227-229, so every task has
exactly one record outcome); the completion order of `as_completed` is
an arbitrary permutation of the task indices, passed explicitly.
-/

/-- A listing entry as the coordinator uses it: the mandatory `id` key
plus the optional listing-only fields read on lines 216-222.  The
`isduty` and `optika` fields hold the Python `str()` rendering of the
raw value, which line 221-222 applies. -/
structure ListingEntry where
  id : Int
  thumbImg : Option String
  pharmacyName : Option String
  pharmacyTel : Option String
  pharmacyMob : Option String
  isduty : Option String
  optika : Option String

/-- Line 195: the comprehension keyed by `id`; a later duplicate
overwrites an earlier one. -/
def basic_info_get (pharmacy_list : List ListingEntry) (pid : Int) : Option ListingEntry :=
  pharmacy_list.reverse.find? (fun e => e.id == pid)

/-- Lines 216-222: merge the listing fragment into a success record.
`basic_info.get(pharmacy_id, ...)` falls back to an empty dict, making
every listing-sourced field default to the empty string. -/
def merge_basic (pharmacy_list : List ListingEntry) (i : Nat)
    (result : List (String × String)) : List (String × String) :=
  let pid := match pharmacy_list.get? i with
    | some e => e.id
    | none => 0
  let basic := basic_info_get pharmacy_list pid
  dictSet (dictSet (dictSet (dictSet (dictSet (dictSet result
    "thumb_image" ((basic.bind ListingEntry.thumbImg).getD ""))
    "pharmacy_name_main" ((basic.bind ListingEntry.pharmacyName).getD ""))
    "pharmacy_tel" ((basic.bind ListingEntry.pharmacyTel).getD ""))
    "pharmacy_mob" ((basic.bind ListingEntry.pharmacyMob).getD ""))
    "is_duty_24h" ((basic.bind ListingEntry.isduty).getD ""))
    "has_optika" ((basic.bind ListingEntry.optika).getD "")

/-- Line 211: outcome routing test, `"error" in result`. -/
def hasError (result : List (String × String)) : Bool :=
  (dictGet result "error").isSome

/-- Lines 197-233: process the completed futures in completion order;
error records go to the error list, success records are merged with
their listing fragment and collected.  The loop runs to the end of
`as_completed`, i.e. the coordinator returns only after every task
has completed. -/
def scrape_all_pharmacies (pharmacy_list : List ListingEntry)
    (outcome : Nat → List (String × String)) :
    List Nat → List (List (String × String)) × List (List (String × String))
  | [] => ([], [])
  | i :: rest =>
    let result := outcome i
    let step := scrape_all_pharmacies pharmacy_list outcome rest
    if hasError result then (step.1, result :: step.2)
    else (merge_basic pharmacy_list i result :: step.1, step.2)

/-!
## Helper lemmas

Record-lookup lemmas for every field of the extractor record, plus
small facts about the matchers, the joiner, decimal rendering and the
coordinator loop.
-/

theorem dictGet_dictSet_ne (r : List (String × String)) (k v c : String) (h : k ≠ c) :
    dictGet (dictSet r k v) c = dictGet r c := by
  induction r with
  | nil => simp [dictSet, dictGet, h]
  | cons hd tl ih =>
    obtain ⟨k₁, v₁⟩ := hd
    simp only [dictSet]
    split_ifs with h₁
    · subst h₁
      simp [dictGet, h]
    · simp [dictGet, ih]

theorem joinIfNonempty_eq (l : List String) :
    joinIfNonempty l = String.intercalate "; " l := by
  cases l with
  | nil => decide
  | cons a r => simp [joinIfNonempty]

theorem firstSome_eq_some {α β : Type} {f : α → Option β} {b : β} :
    ∀ {cands : List α}, firstSome f cands = some b → ∃ a ∈ cands, f a = some b := by
  intro cands
  induction cands with
  | nil => intro h; simp [firstSome] at h
  | cons a rest ih =>
    intro h
    cases hfa : f a with
    | some b₁ =>
      simp only [firstSome, hfa] at h
      exact ⟨a, by simp, by rw [hfa, h]⟩
    | none =>
      simp only [firstSome, hfa] at h
      obtain ⟨a₁, ha₁, hfa₁⟩ := ih h
      exact ⟨a₁, by simp [ha₁], hfa₁⟩

theorem parseCoord_ne_empty {l : List Char} {s : String} {r : List Char}
    (h : parseCoord l = some (s, r)) : s ≠ "" := by
  dsimp only [parseCoord] at h
  split at h
  · exact absurd h (by simp)
  · rename_i hne
    simp only [Option.some.injEq, Prod.mk.injEq] at h
    obtain ⟨hs, -⟩ := h
    subst hs
    intro heq
    have hd := congrArg String.data heq
    simp only [List.asString] at hd
    exact hne (by rw [List.isEmpty_iff]; exact hd)

theorem matchLatLng_ne_empty {l : List Char} {a b : String}
    (h : matchLatLng l = some (a, b)) : a ≠ "" ∧ b ≠ "" := by
  unfold matchLatLng at h
  obtain ⟨sufLat, -, h₁⟩ := firstSome_eq_some h
  cases hpc : parseCoord sufLat with
  | none => rw [hpc] at h₁; simp at h₁
  | some pr =>
    obtain ⟨lat, rest⟩ := pr
    rw [hpc] at h₁
    simp only at h₁
    obtain ⟨sufLng, -, h₂⟩ := firstSome_eq_some h₁
    cases hpc₂ : parseCoord sufLng with
    | none => rw [hpc₂] at h₂; simp at h₂
    | some pr₂ =>
      obtain ⟨lng, rest₂⟩ := pr₂
      rw [hpc₂] at h₂
      simp only [Option.some.injEq, Prod.mk.injEq] at h₂
      obtain ⟨ha, hb⟩ := h₂
      subst ha; subst hb
      exact ⟨parseCoord_ne_empty hpc, parseCoord_ne_empty hpc₂⟩

theorem map_coords_search_ne_empty :
    ∀ {l : List Char} {a b : String},
      map_coords_search l = some (a, b) → a ≠ "" ∧ b ≠ "" := by
  intro l
  induction l with
  | nil => intro a b h; simp [map_coords_search] at h
  | cons c rest ih =>
    intro a b h
    simp only [map_coords_search] at h
    cases hdl : dropLiteral "initMapPharmacies".data (c :: rest) with
    | none => rw [hdl] at h; exact ih h
    | some suf =>
      rw [hdl] at h
      simp only at h
      cases hab : afterBrace suf with
      | none => rw [hab] at h; exact ih h
      | some inner =>
        rw [hab] at h
        simp only at h
        cases hml : matchLatLng inner with
        | none => rw [hml] at h; exact ih h
        | some pr =>
          rw [hml] at h
          obtain ⟨a₁, b₁⟩ := pr
          simp only [Option.some.injEq, Prod.mk.injEq] at h
          obtain ⟨ha, hb⟩ := h
          subst ha; subst hb
          exact matchLatLng_ne_empty hml

theorem latitudeVal_empty_iff (p : Page) :
    latitudeVal p = "" ↔ longitudeVal p = "" := by
  unfold latitudeVal longitudeVal
  cases hms : map_coords_search p.text.data with
  | none => simp
  | some pr =>
    obtain ⟨a, b⟩ := pr
    have h := map_coords_search_ne_empty hms
    simp [h.1, h.2]

theorem dictGet_scrape_name_none (pid : Int) (p : Page) (h : p.titleText = none) :
    dictGet (scrape_pharmacy_page pid p) "name" = none := by
  simp [scrape_pharmacy_page, dictGet, h]

theorem dictGet_scrape_name_some (pid : Int) (p : Page) (t : String)
    (h : p.titleText = some t) :
    dictGet (scrape_pharmacy_page pid p) "name" = some (nameVal t) := by
  simp [scrape_pharmacy_page, dictGet, h]

theorem dictGet_scrape_description (pid : Int) (p : Page) :
    dictGet (scrape_pharmacy_page pid p) "description" = some (descriptionVal p) := by
  cases htt : p.titleText <;> simp [scrape_pharmacy_page, dictGet, htt]

theorem dictGet_scrape_region (pid : Int) (p : Page) :
    dictGet (scrape_pharmacy_page pid p) "region" = some (regionVal p) := by
  cases htt : p.titleText <;> simp [scrape_pharmacy_page, dictGet, htt]

theorem dictGet_scrape_address (pid : Int) (p : Page) :
    dictGet (scrape_pharmacy_page pid p) "address" = some (addressVal p) := by
  cases htt : p.titleText <;> simp [scrape_pharmacy_page, dictGet, htt]

theorem dictGet_scrape_contact_phone (pid : Int) (p : Page) :
    dictGet (scrape_pharmacy_page pid p) "contact_phone" = some (contactPhoneVal p) := by
  cases htt : p.titleText <;> simp [scrape_pharmacy_page, dictGet, htt]

theorem dictGet_scrape_has_optika_service (pid : Int) (p : Page) :
    dictGet (scrape_pharmacy_page pid p) "has_optika_service" =
      some (optikaServiceVal p) := by
  cases htt : p.titleText <;> simp [scrape_pharmacy_page, dictGet, htt]

theorem dictGet_scrape_latitude (pid : Int) (p : Page) :
    dictGet (scrape_pharmacy_page pid p) "latitude" = some (latitudeVal p) := by
  cases htt : p.titleText <;> simp [scrape_pharmacy_page, dictGet, htt]

theorem dictGet_scrape_longitude (pid : Int) (p : Page) :
    dictGet (scrape_pharmacy_page pid p) "longitude" = some (longitudeVal p) := by
  cases htt : p.titleText <;> simp [scrape_pharmacy_page, dictGet, htt]

theorem dictGet_scrape_image_url (pid : Int) (p : Page) :
    dictGet (scrape_pharmacy_page pid p) "image_url" = some (imageUrlVal p) := by
  cases htt : p.titleText <;> simp [scrape_pharmacy_page, dictGet, htt]

theorem dictGet_scrape_all_phones (pid : Int) (p : Page) :
    dictGet (scrape_pharmacy_page pid p) "all_phones" = some (allPhonesVal p) := by
  cases htt : p.titleText <;> simp [scrape_pharmacy_page, dictGet, htt]

theorem dictGet_scrape_insurance (pid : Int) (p : Page) :
    dictGet (scrape_pharmacy_page pid p) "insurance_partners" =
      some (insuranceVal p) := by
  cases htt : p.titleText <;> simp [scrape_pharmacy_page, dictGet, htt]

theorem dictGet_scrape_gallery_images (pid : Int) (p : Page) :
    dictGet (scrape_pharmacy_page pid p) "gallery_images" =
      some (galleryImagesVal p) := by
  cases htt : p.titleText <;> simp [scrape_pharmacy_page, dictGet, htt]

theorem dictGet_scrape_gallery_count (pid : Int) (p : Page) :
    dictGet (scrape_pharmacy_page pid p) "gallery_count" =
      some (galleryCountVal p) := by
  cases htt : p.titleText <;> simp [scrape_pharmacy_page, dictGet, htt]

theorem dictGet_scrape_google_maps_url (pid : Int) (p : Page) :
    dictGet (scrape_pharmacy_page pid p) "google_maps_url" = some (mapsUrlVal p) := by
  cases htt : p.titleText <;> simp [scrape_pharmacy_page, dictGet, htt]

theorem toDigitsCore_len_lower (b : Nat) :
    ∀ (fuel n : Nat) (ds : List Char), 1 ≤ fuel →
      ds.length + 1 ≤ (Nat.toDigitsCore b fuel n ds).length := by
  intro fuel
  induction fuel with
  | zero => intro n ds h; omega
  | succ f ih =>
    intro n ds _
    rw [Nat.toDigitsCore]
    by_cases h : n / b = 0
    · simp [h]
    · simp only [h, if_false]
      cases f with
      | zero => simp [Nat.toDigitsCore]
      | succ f₁ =>
        calc ds.length + 1 ≤ (Nat.digitChar (n % b) :: ds).length + 1 := by simp
        _ ≤ _ := ih (n / b) (Nat.digitChar (n % b) :: ds) (by omega)

theorem repr_ne_zero (n : Nat) (h : n ≠ 0) : Nat.repr n ≠ "0" := by
  by_cases h10 : n < 10
  · have hpos : 1 ≤ n := Nat.pos_of_ne_zero h
    interval_cases n <;> decide
  · intro heq
    have h2 : Nat.toDigitsCore 10 (n + 1) n [] =
        Nat.toDigitsCore 10 n (n / 10) [Nat.digitChar (n % 10)] := by
      rw [Nat.toDigitsCore]
      have hne : ¬ n / 10 = 0 := by omega
      simp [hne]
    have h3 := toDigitsCore_len_lower 10 n (n / 10) [Nat.digitChar (n % 10)] (by omega)
    have h4 : (Nat.repr n).length = 1 := by rw [heq]; rfl
    have h5 : (Nat.repr n).length = (Nat.toDigitsCore 10 (n + 1) n []).length := by
      simp [Nat.repr, Nat.toDigits, List.asString, String.length]
    rw [h5, h2] at h4
    simp at h3
    omega

theorem repr_eq_zero_iff (n : Nat) : Nat.repr n = "0" ↔ n = 0 := by
  constructor
  · intro h; by_contra hn; exact repr_ne_zero n hn h
  · rintro rfl; rfl

theorem scrape_all_res_length (pharmacy_list : List ListingEntry)
    (outcome : Nat → List (String × String)) :
    ∀ order : List Nat,
      (scrape_all_pharmacies pharmacy_list outcome order).1.length =
        (order.filter (fun i => !hasError (outcome i))).length := by
  intro order
  induction order with
  | nil => rfl
  | cons i rest ih =>
    by_cases hb : hasError (outcome i) <;>
      simp [scrape_all_pharmacies, hb, ih]

theorem scrape_all_err_length (pharmacy_list : List ListingEntry)
    (outcome : Nat → List (String × String)) :
    ∀ order : List Nat,
      (scrape_all_pharmacies pharmacy_list outcome order).2.length =
        (order.filter (fun i => hasError (outcome i))).length := by
  intro order
  induction order with
  | nil => rfl
  | cons i rest ih =>
    by_cases hb : hasError (outcome i) <;>
      simp [scrape_all_pharmacies, hb, ih]

theorem scrape_all_sum_length (pharmacy_list : List ListingEntry)
    (outcome : Nat → List (String × String)) :
    ∀ order : List Nat,
      (scrape_all_pharmacies pharmacy_list outcome order).1.length +
        (scrape_all_pharmacies pharmacy_list outcome order).2.length = order.length := by
  intro order
  induction order with
  | nil => rfl
  | cons i rest ih =>
    by_cases hb : hasError (outcome i) <;>
      simp [scrape_all_pharmacies, hb] <;> omega

/-! ## Claim theorems -/

/-- Claim C1, counterexample: persist applied to the empty row
sequence is claimed to produce a file whose only line is the fixed
column header; `save_to_csv` instead takes the guard on lines 238-240
and returns without creating any file, modelled as `none`. -/
theorem save_to_csv_nil_writes_nothing : save_to_csv [] = none := rfl

/-- Claim C1, amended: when zero per-identifier tasks succeed the
pipeline still invokes persist with the empty sequence, but persist
then writes no output artifact at all: it produces a file exactly for
non-empty row sequences, and no header-only artifact ever appears. -/
theorem save_to_csv_none_iff_empty (data : List (List (String × String))) :
    save_to_csv data = none ↔ data = [] := by
  cases data <;> simp [save_to_csv]

/-- Claim C2: for every worklist, every per-task outcome assignment
and every completion order of the tasks, the coordinator returns one
outcome per worklist entry: the success and failure counts sum to the
worklist length, and each count equals the number of tasks whose
outcome carries, respectively lacks, an error key, independently of
the completion order.  The coordinator consumes the whole completion
sequence, returning only after all tasks have completed. -/
theorem scrape_all_pharmacies_outcome_counts (pharmacy_list : List ListingEntry)
    (outcome : Nat → List (String × String)) (order : List Nat)
    (h : order.Perm (List.range pharmacy_list.length)) :
    (scrape_all_pharmacies pharmacy_list outcome order).1.length +
        (scrape_all_pharmacies pharmacy_list outcome order).2.length =
      pharmacy_list.length ∧
    (scrape_all_pharmacies pharmacy_list outcome order).1.length =
      ((List.range pharmacy_list.length).filter
        (fun i => !hasError (outcome i))).length ∧
    (scrape_all_pharmacies pharmacy_list outcome order).2.length =
      ((List.range pharmacy_list.length).filter
        (fun i => hasError (outcome i))).length := by
  refine ⟨?_, ?_, ?_⟩
  · rw [scrape_all_sum_length, h.length_eq, List.length_range]
  · rw [scrape_all_res_length]
    exact (h.filter _).length_eq
  · rw [scrape_all_err_length]
    exact (h.filter _).length_eq

/-- Witness for claim C2: a two-entry worklist whose second task fails,
completing in reverse order, yields two outcomes. -/
theorem scrape_all_pharmacies_outcome_counts_witness :
    (scrape_all_pharmacies
        [⟨1, none, none, none, none, none, none⟩,
         ⟨2, none, none, none, none, none, none⟩]
        (fun i => if i = 0 then [("id", "1")] else [("id", "2"), ("error", "HTTP 500")])
        [1, 0]).1.length +
      (scrape_all_pharmacies
        [⟨1, none, none, none, none, none, none⟩,
         ⟨2, none, none, none, none, none, none⟩]
        (fun i => if i = 0 then [("id", "1")] else [("id", "2"), ("error", "HTTP 500")])
        [1, 0]).2.length = 2 :=
  (scrape_all_pharmacies_outcome_counts _ _ [1, 0] (by decide)).1

/-- Claim C3: in every extracted record the maps link is empty exactly
when the latitude field or the longitude field is empty, and a
non-empty maps link contains both coordinate values. -/
theorem maps_link_iff_coords (pid : Int) (p : Page) :
    (dictGet (scrape_pharmacy_page pid p) "google_maps_url" = some "" ↔
      (dictGet (scrape_pharmacy_page pid p) "latitude" = some "" ∨
        dictGet (scrape_pharmacy_page pid p) "longitude" = some "")) ∧
    (∀ lv gv u,
      dictGet (scrape_pharmacy_page pid p) "latitude" = some lv →
      dictGet (scrape_pharmacy_page pid p) "longitude" = some gv →
      dictGet (scrape_pharmacy_page pid p) "google_maps_url" = some u →
      u ≠ "" → lv.data <:+: u.data ∧ gv.data <:+: u.data) := by
  rw [dictGet_scrape_latitude, dictGet_scrape_longitude, dictGet_scrape_google_maps_url]
  constructor
  · simp only [Option.some.injEq]
    unfold mapsUrlVal
    by_cases hl : latitudeVal p = ""
    · have hg := (latitudeVal_empty_iff p).mp hl
      simp [hl, hg]
    · have hg : longitudeVal p ≠ "" := fun hg => hl ((latitudeVal_empty_iff p).mpr hg)
      rw [if_pos (by simp [bne_iff_ne, hl, hg])]
      constructor
      · intro habs
        have hd := congrArg String.data habs
        simp [String.data_append] at hd
      · rintro (h | h)
        · exact absurd h hl
        · exact absurd h hg
  · intro lv gv u hlv hgv hu hne
    simp only [Option.some.injEq] at hlv hgv hu
    subst hlv; subst hgv; subst hu
    unfold mapsUrlVal at hne ⊢
    by_cases hcond : (latitudeVal p != "" && longitudeVal p != "") = true
    · rw [if_pos hcond]
      constructor
      · exact ⟨"https://www.google.com/maps?q=".data,
          ",".data ++ (longitudeVal p).data, by simp [String.data_append]⟩
      · exact ⟨"https://www.google.com/maps?q=".data ++ (latitudeVal p).data ++ ",".data,
          [], by simp [String.data_append]⟩
    · rw [if_neg hcond] at hne
      exact absurd rfl hne

/-- Witness for claim C3 at a concrete page carrying coordinates. -/
theorem maps_link_iff_coords_witness :
    ("40.123".data <:+: "https://www.google.com/maps?q=40.123,49.456".data) ∧
    ("49.456".data <:+: "https://www.google.com/maps?q=40.123,49.456".data) :=
  (maps_link_iff_coords 1
      (Page.mk none none none none none [] none none
        "initMapPharmacies(map)\x7b lat: (40.123), lng:(49.456) \x7d")).2
    "40.123" "49.456" "https://www.google.com/maps?q=40.123,49.456"
    (by decide) (by decide) (by decide) (by decide)

/-- Claim C4, counterexample: on a page with no title element the
extractor record carries no `name` key at all (lines 85-89 assign the
key only inside the `if title:` branch), whereas the claim requires the
name field to be present with an empty value. -/
theorem missing_title_name_counterexample :
    dictGet (scrape_pharmacy_page 1
      (Page.mk none none none none none [] none none "")) "name" = none := by
  rfl

/-- Claim C4, amended: extraction of a page missing any optional block
still returns a record, and every field whose source element is absent
is set to its defined empty or default value, except the name field,
which is missing from the record entirely (rather than present and
empty) when the title element is absent. -/
theorem extraction_absent_defaults (pid : Int) (p : Page) :
    (p.titleText = none → dictGet (scrape_pharmacy_page pid p) "name" = none) ∧
    (p.metaDescContent = none →
      dictGet (scrape_pharmacy_page pid p) "description" = some "") ∧
    (p.cardHeaderText = none →
      dictGet (scrape_pharmacy_page pid p) "region" = some "") ∧
    (p.contactDiv = none →
      dictGet (scrape_pharmacy_page pid p) "address" = some "" ∧
      dictGet (scrape_pharmacy_page pid p) "contact_phone" = some "" ∧
      dictGet (scrape_pharmacy_page pid p) "has_optika_service" = some "0") ∧
    (p.aptekPintoImgSrc = none →
      dictGet (scrape_pharmacy_page pid p) "image_url" = some "") ∧
    (p.partniyorImgTitles = none →
      dictGet (scrape_pharmacy_page pid p) "insurance_partners" = some "") ∧
    (p.tabGalleryImgSrcs = none →
      dictGet (scrape_pharmacy_page pid p) "gallery_images" = some "" ∧
      dictGet (scrape_pharmacy_page pid p) "gallery_count" = some "0") := by
  refine ⟨fun h => dictGet_scrape_name_none pid p h, fun h => ?_, fun h => ?_,
    fun h => ⟨?_, ?_, ?_⟩, fun h => ?_, fun h => ?_, fun h => ⟨?_, ?_⟩⟩
  · rw [dictGet_scrape_description]; simp [descriptionVal, h]
  · rw [dictGet_scrape_region]; simp [regionVal, h]
  · rw [dictGet_scrape_address]; simp [addressVal, h]
  · rw [dictGet_scrape_contact_phone]; simp [contactPhoneVal, h]
  · rw [dictGet_scrape_has_optika_service]; simp [optikaServiceVal, h]
  · rw [dictGet_scrape_image_url]; simp [imageUrlVal, h]
  · rw [dictGet_scrape_insurance]; simp [insuranceVal, h]
  · rw [dictGet_scrape_gallery_images]; simp [galleryImagesVal, galleryUrls, h]
  · rw [dictGet_scrape_gallery_count]; simp [galleryCountVal, galleryUrls, h]

/-- Witness for claim C4 on the fully empty page. -/
theorem extraction_absent_defaults_witness :
    dictGet (scrape_pharmacy_page 1
      (Page.mk none none none none none [] none none "")) "description" = some "" :=
  (extraction_absent_defaults 1
    (Page.mk none none none none none [] none none "")).2.1 rfl

/-- Claim C5, counterexample: a page whose body text contains
`lat: (40.123)` and `lng:(49.456)` thirteen characters apart, but no
`initMapPharmacies` anchor, is claimed to yield those coordinates; the
regex of lines 127-130 requires the anchor, so extraction yields empty
coordinate fields and an empty maps link. -/
theorem coords_without_anchor_counterexample :
    ("lat: (40.123)".data <:+:
      (Page.mk none none none none none [] none none
        "lat: (40.123) lng:(49.456)").text.data) ∧
    ("lng:(49.456)".data <:+:
      (Page.mk none none none none none [] none none
        "lat: (40.123) lng:(49.456)").text.data) ∧
    dictGet (scrape_pharmacy_page 1
      (Page.mk none none none none none [] none none
        "lat: (40.123) lng:(49.456)")) "latitude" = some "" ∧
    dictGet (scrape_pharmacy_page 1
      (Page.mk none none none none none [] none none
        "lat: (40.123) lng:(49.456)")) "longitude" = some "" ∧
    dictGet (scrape_pharmacy_page 1
      (Page.mk none none none none none [] none none
        "lat: (40.123) lng:(49.456)")) "google_maps_url" = some "" :=
  ⟨by decide, by decide, by rfl, by rfl, by rfl⟩

/-- Claim C5, amended: when the coordinate texts appear inside an
`initMapPharmacies` script block, that is, after the anchor literal,
a non-brace run and an opening brace, with no closing brace before the
coordinates, extraction yields latitude 40.123 and longitude 49.456
and a maps link joining them with a comma. -/
theorem coords_script_scenario (pid : Int) (p : Page)
    (h : p.text = "initMapPharmacies(map)\x7b lat: (40.123), lng:(49.456) \x7d") :
    dictGet (scrape_pharmacy_page pid p) "latitude" = some "40.123" ∧
    dictGet (scrape_pharmacy_page pid p) "longitude" = some "49.456" ∧
    dictGet (scrape_pharmacy_page pid p) "google_maps_url" =
      some "https://www.google.com/maps?q=40.123,49.456" := by
  have hms : map_coords_search p.text.data = some ("40.123", "49.456") := by
    rw [h]; decide
  have hlat : latitudeVal p = "40.123" := by unfold latitudeVal; rw [hms]
  have hlng : longitudeVal p = "49.456" := by unfold longitudeVal; rw [hms]
  refine ⟨?_, ?_, ?_⟩
  · rw [dictGet_scrape_latitude, hlat]
  · rw [dictGet_scrape_longitude, hlng]
  · rw [dictGet_scrape_google_maps_url]
    unfold mapsUrlVal
    rw [hlat, hlng]
    rfl

/-- Witness for claim C5 at the concrete script page. -/
theorem coords_script_scenario_witness :
    dictGet (scrape_pharmacy_page 1
      (Page.mk none none none none none [] none none
        "initMapPharmacies(map)\x7b lat: (40.123), lng:(49.456) \x7d")) "latitude" =
      some "40.123" :=
  (coords_script_scenario 1
    (Page.mk none none none none none [] none none
      "initMapPharmacies(map)\x7b lat: (40.123), lng:(49.456) \x7d") rfl).1

/-- Claim C6, counterexample: on the empty record sequence persist
writes no header row at all (it returns early without creating a
file), contradicting the unconditional claim that exactly one header
row is written. -/
theorem save_header_empty_counterexample :
    ¬ ∃ out, save_to_csv [] = some out ∧ out.head? = some columns := by
  rintro ⟨out, hout, -⟩
  simp [save_to_csv] at hout

/-- Claim C6, amended: for every non-empty record sequence, persist
writes exactly one header row, in the fixed column order, followed by
one row per record in that same column order, each cell holding the
value bound to its column key with missing keys rendered empty, and
any key outside the fixed column set is silently omitted from the
written rows. -/
theorem save_to_csv_format (data : List (List (String × String))) (h : data ≠ []) :
    (save_to_csv data).isSome = true ∧
    ((save_to_csv data).getD []).head? =
      some ["id", "name", "pharmacy_name_main", "description", "region", "address",
        "latitude", "longitude", "contact_phone", "pharmacy_tel", "pharmacy_mob",
        "all_phones", "is_duty_24h", "has_optika", "has_optika_service",
        "insurance_partners", "image_url", "thumb_image", "gallery_images",
        "gallery_count", "google_maps_url", "page_url"] ∧
    ((save_to_csv data).getD []).length = data.length + 1 ∧
    (∀ i r, data.get? i = some r →
      ((save_to_csv data).getD []).get? (i + 1) = some (csvRow r)) ∧
    (∀ r, csvRow r =
      [(dictGet r "id").getD "", (dictGet r "name").getD "",
       (dictGet r "pharmacy_name_main").getD "", (dictGet r "description").getD "",
       (dictGet r "region").getD "", (dictGet r "address").getD "",
       (dictGet r "latitude").getD "", (dictGet r "longitude").getD "",
       (dictGet r "contact_phone").getD "", (dictGet r "pharmacy_tel").getD "",
       (dictGet r "pharmacy_mob").getD "", (dictGet r "all_phones").getD "",
       (dictGet r "is_duty_24h").getD "", (dictGet r "has_optika").getD "",
       (dictGet r "has_optika_service").getD "",
       (dictGet r "insurance_partners").getD "", (dictGet r "image_url").getD "",
       (dictGet r "thumb_image").getD "", (dictGet r "gallery_images").getD "",
       (dictGet r "gallery_count").getD "", (dictGet r "google_maps_url").getD "",
       (dictGet r "page_url").getD ""]) ∧
    (∀ r k v, k ∉ columns → csvRow (dictSet r k v) = csvRow r) := by
  have hne : data.isEmpty = false := by
    cases data with
    | nil => exact absurd rfl h
    | cons a l => rfl
  have hsave : save_to_csv data = some (columns :: data.map csvRow) := by
    unfold save_to_csv
    rw [if_neg (by simp [hne])]
  rw [hsave]
  refine ⟨rfl, rfl, by simp, ?_, fun r => rfl, ?_⟩
  · intro i r hir
    simp only [Option.getD_some, List.get?_cons_succ, List.get?_map, hir]
    rfl
  · intro r k v hk
    unfold csvRow
    apply List.map_congr_left
    intro c hc
    have hkc : k ≠ c := fun he => hk (he ▸ hc)
    rw [dictGet_dictSet_ne r k v c hkc]

/-- Witness for claim C6 on a one-record input carrying an extra key. -/
theorem save_to_csv_format_witness :
    (save_to_csv [[("id", "7"), ("extra", "x")]]).isSome = true :=
  (save_to_csv_format [[("id", "7"), ("extra", "x")]] (by decide)).1

/-- Claim C7, counterexample: a 200-status body in which the anchored
data block is present (the listing pattern matches) can still abort:
the matched block need not be valid JSON, and `json.loads` on line 62
then raises a `JSONDecodeError`, a third failure mode beyond the two
the claim allows. -/
theorem get_pharmacy_ids_decode_failure :
    json_match_search ("x[\x7b\"id\":1,\"thumbImg\"\x7d]y" : String).data ≠ none ∧
    (∃ e, get_pharmacy_ids ⟨200, "x[\x7b\"id\":1,\"thumbImg\"\x7d]y"⟩ =
      Except.error e) :=
  ⟨by decide, ⟨"JSONDecodeError", by rfl⟩⟩

/-- Claim C7, amended: listing resolution raises if and only if the
response status is not 200, or the anchored data block is absent, or
the matched block fails to decode as a JSON array; otherwise it
returns the decoded sequence of listing entries.  In `main` the raise
propagates before any fetching or merging happens. -/
theorem get_pharmacy_ids_spec (response : HttpResponse) :
    ((∃ xs, get_pharmacy_ids response = Except.ok xs) ↔
      (response.status_code = 200 ∧
        ∃ m xs, json_match_search response.text.data = some m ∧
          json_loads m.asString = some (Json.arr xs))) ∧
    (∀ m xs, response.status_code = 200 →
      json_match_search response.text.data = some m →
      json_loads m.asString = some (Json.arr xs) →
      get_pharmacy_ids response = Except.ok xs) := by
  unfold get_pharmacy_ids
  by_cases hs : response.status_code = 200
  · rw [if_neg (by simp [hs])]
    cases hm : json_match_search response.text.data with
    | none => simp [hs]
    | some m =>
      cases hj : json_loads m.asString with
      | none =>
        simp [hs, hj]
        intro m₁ xs hmm
        subst hmm
        simp [hj]
      | some j =>
        cases j <;> simp [hs, hj] <;>
          (intro m₁ xs hmm
           subst hmm
           rw [hj]
           simp)
  · rw [if_pos hs]
    simp [hs]

/-- Witness for claim C7 at a concrete listing body. -/
theorem get_pharmacy_ids_spec_witness :
    get_pharmacy_ids ⟨200, "var a = [\x7b\"id\":5,\"thumbImg\":\"a.jpg\"\x7d];"⟩ =
      Except.ok [Json.obj [("id", Json.num "5"), ("thumbImg", Json.str "a.jpg")]] :=
  (get_pharmacy_ids_spec
      ⟨200, "var a = [\x7b\"id\":5,\"thumbImg\":\"a.jpg\"\x7d];"⟩).2
    "[\x7b\"id\":5,\"thumbImg\":\"a.jpg\"\x7d]".data
    [Json.obj [("id", Json.num "5"), ("thumbImg", Json.str "a.jpg")]]
    rfl (by rfl) (by rfl)

/-- Claim C8: extraction is deterministic; two extraction runs over the
same identifier and the same markup agree field for field.  The one
implementation-defined ingredient, the iteration order of the Python
set used for `all_phones`, is fixed within a process by the input
alone, which the page model reflects. -/
theorem extraction_deterministic (pid : Int) (p q : Page) (h : p = q) :
    ∀ k, dictGet (scrape_pharmacy_page pid p) k =
      dictGet (scrape_pharmacy_page pid q) k := by
  subst h
  intro k
  rfl

/-- Witness for claim C8 at a concrete page. -/
theorem extraction_deterministic_witness :
    dictGet (scrape_pharmacy_page 1
        (Page.mk none none none none none ["tel:+994"] none none "")) "all_phones" =
      dictGet (scrape_pharmacy_page 1
        (Page.mk none none none none none ["tel:+994"] none none "")) "all_phones" :=
  extraction_deterministic 1
    (Page.mk none none none none none ["tel:+994"] none none "")
    (Page.mk none none none none none ["tel:+994"] none none "") rfl "all_phones"

/-- Claim C9: the `all_phones` field is the delimiter-join of the
deduplicated stripped targets of the tel-scheme anchors: some list
without duplicates, containing exactly the stripped targets, joins to
the field value, so every phone number appears at most once however
often the markup repeats it. -/
theorem all_phones_deduplicated (pid : Int) (p : Page) :
    ∃ phones : List String, phones.Nodup ∧
      (∀ x, x ∈ phones ↔
        x ∈ (p.anchorHrefs.filter (fun h => "tel:".isPrefixOf h)).map stripTel) ∧
      dictGet (scrape_pharmacy_page pid p) "all_phones" =
        some (String.intercalate "; " phones) := by
  refine ⟨telPhones p, ?_, ?_, ?_⟩
  · unfold telPhones
    exact List.nodup_dedup _
  · intro x
    unfold telPhones
    exact List.mem_dedup
  · rw [dictGet_scrape_all_phones]
    unfold allPhonesVal
    rw [joinIfNonempty_eq]

/-- Claim C10: the gallery fields are consistent: some list of gallery
URLs joins to `gallery_images` while its length renders to
`gallery_count`, and the count is the zero string exactly when the
gallery container is absent or carries no sourced image. -/
theorem gallery_fields_consistent (pid : Int) (p : Page) :
    ∃ L : List String,
      dictGet (scrape_pharmacy_page pid p) "gallery_images" =
        some (String.intercalate "; " L) ∧
      dictGet (scrape_pharmacy_page pid p) "gallery_count" =
        some (Nat.repr L.length) ∧
      (dictGet (scrape_pharmacy_page pid p) "gallery_count" = some "0" ↔
        (galleryUrls p = none ∨ galleryUrls p = some [])) := by
  refine ⟨(galleryUrls p).getD [], ?_, ?_, ?_⟩
  · rw [dictGet_scrape_gallery_images]
    cases hg : galleryUrls p with
    | none => simp only [galleryImagesVal, hg, Option.getD_none, Option.some.injEq]; decide
    | some urls => simp [galleryImagesVal, hg, joinIfNonempty_eq]
  · rw [dictGet_scrape_gallery_count]
    cases hg : galleryUrls p with
    | none => simp only [galleryCountVal, hg, Option.getD_none, Option.some.injEq]; decide
    | some urls => simp [galleryCountVal, hg]
  · rw [dictGet_scrape_gallery_count]
    cases hg : galleryUrls p with
    | none => simp [galleryCountVal, hg]
    | some urls =>
      simp only [galleryCountVal, hg, Option.some.injEq]
      constructor
      · intro h0
        right
        have hlen := (repr_eq_zero_iff urls.length).mp h0
        rw [List.length_eq_zero] at hlen
        rw [hlen]
      · rintro (h | h)
        · cases h
        · subst h
          decide
